import Mathlib

/-!
Verification of the feature-synthesis function of the Parkinson's severity
prediction app (src/app.py, function `create_medical_feature_vector`).
The sliders are embedded as integers, the synthesized biomarker values as
rationals, and numpy's one-segment `np.interp` as an exact piecewise-linear
map with clamping at the endpoints.
-/

/-- Slider and demographic inputs collected by the form, one prediction
request's worth.  Sliders are integers in the app (Streamlit number input
and sliders). -/
structure SliderInputs where
  age : ℤ
  sex : ℤ
  tremor : ℤ
  voiceClarity : ℤ
  speechStability : ℤ
  distortion : ℤ
deriving DecidableEq, Repr

/-- Validity of the inputs as constrained by the widgets: age in 20..90,
sex encoded 0 or 1, the four sliders in 0..10. -/
def ValidInputs (s : SliderInputs) : Prop :=
  20 ≤ s.age ∧ s.age ≤ 90 ∧ (s.sex = 0 ∨ s.sex = 1) ∧
  0 ≤ s.tremor ∧ s.tremor ≤ 10 ∧
  0 ≤ s.voiceClarity ∧ s.voiceClarity ≤ 10 ∧
  0 ≤ s.speechStability ∧ s.speechStability ≤ 10 ∧
  0 ≤ s.distortion ∧ s.distortion ≤ 10

instance (s : SliderInputs) : Decidable (ValidInputs s) := by
  unfold ValidInputs; infer_instance

/-- Does the list `p` occur as a leading segment of `l`?  Building block for
substring containment, used to embed Python's `pat in str` test. -/
def startsWithL : List Char → List Char → Bool
  | [], _ => true
  | _ :: _, [] => false
  | p :: ps, c :: cs => (p == c) && startsWithL ps cs

/-- Does the list `pat` occur contiguously anywhere in the second list? -/
def hasSub (pat : List Char) : List Char → Bool
  | [] => startsWithL pat []
  | c :: cs => startsWithL pat (c :: cs) || hasSub pat cs

/-- Embedding of Python's membership test `pat in s` on strings:
`strContains s pat` is true iff `pat` occurs as a contiguous substring
of `s` (the empty pattern occurs in every string). -/
def strContains (s pat : String) : Bool :=
  hasSub pat.toList s.toList

/-- ASCII lowercasing of a string, character by character: the embedding of
Python's `str.lower()` for the ASCII feature names the app works with. -/
def lowerStr (s : String) : String :=
  ⟨s.toList.map Char.toLower⟩

/-- Embedding of scalar `np.interp x [x0, x1] [y0, y1]`: clamp to `y0`
below `x0` and to `y1` above `x1`, linear in between. -/
def interp (x x0 x1 y0 y1 : ℚ) : ℚ :=
  if x ≤ x0 then y0
  else if x1 ≤ x then y1
  else y0 + (x - x0) * (y1 - y0) / (x1 - x0)

/-- The per-name body of the loop in `create_medical_feature_vector`
(src/app.py lines 139-178): the value written at a position whose feature
name is `name`, given the current slider inputs.  The if-chain mirrors the
source's `if`/`elif` chain, conditions in source order: the first four
patterns are tested against `name.lower()`, the remaining five against
`name` itself (case-sensitively), and the final `else` is the fallback. -/
def featureValue (s : SliderInputs) (name : String) : ℚ :=
  if strContains (lowerStr name) "age" then (s.age : ℚ)
  else if strContains (lowerStr name) "sex" then (s.sex : ℚ)
  else if strContains (lowerStr name) "jitter" then
    interp (s.distortion : ℚ) 0 10 0.0001 0.010
  else if strContains (lowerStr name) "shimmer" then
    interp (s.distortion : ℚ) 0 10 0.01 0.2
  else if strContains name "NHR" then
    interp ((10 - s.voiceClarity : ℤ) : ℚ) 0 10 0.01 0.30
  else if strContains name "HNR" then
    interp (s.voiceClarity : ℚ) 0 10 5 35
  else if strContains name "RPDE" then
    interp ((10 - s.speechStability : ℤ) : ℚ) 0 10 0.30 0.65
  else if strContains name "DFA" then
    interp ((10 - s.tremor : ℤ) : ℚ) 0 10 0.50 1.30
  else if strContains name "PPE" then
    interp ((s.distortion : ℚ) + ((10 - s.speechStability : ℤ) : ℚ)) 0 20 0.02 0.30
  else
    interp (s.distortion : ℚ) 0 10 0.1 1.0

/-- Embedding of `create_medical_feature_vector` (src/app.py lines 132-180):
the loop fills one value per entry of `feature_names` by the per-name rule,
so the result is the map of `featureValue` over the schema.  The final
`reshape(1, -1)` only changes the array shape, not the sequence of values,
and is dropped in the embedding. -/
def create_medical_feature_vector (s : SliderInputs) (feature_names : List String) : List ℚ :=
  feature_names.map (featureValue s)

/-- The default slider state of the form: age 60, sex Male (1), every
slider at its default 5. -/
def defaultInputs : SliderInputs :=
  { age := 60, sex := 1, tremor := 5, voiceClarity := 5, speechStability := 5, distortion := 5 }

/-- A dispatch rule of the spec's contract table: a predicate on the
feature name, paired with the value computed from the sliders when the
predicate fires. -/
def Rule : Type := (String → Bool) × (SliderInputs → ℚ)

/-- Applies an ordered rule list with first match wins; when no rule fires,
the fallback of the table applies: distortion interpolated into the generic
range [0.1, 1.0]. -/
def applyRules (s : SliderInputs) (name : String) : List Rule → ℚ
  | [] => interp (s.distortion : ℚ) 0 10 0.1 1.0
  | (p, v) :: rest => if p name then v s else applyRules s name rest

/-- The contract table read literally as the claim reads the spec: every
substring predicate is case-insensitive except the NHR and HNR ones, which
the spec marks case-sensitive.  Case-insensitive containment of a pattern
is containment of its lowercase form in the lowercased name. -/
def claimRules : List Rule := [
  (fun name => strContains (lowerStr name) "age", fun s => (s.age : ℚ)),
  (fun name => strContains (lowerStr name) "sex", fun s => (s.sex : ℚ)),
  (fun name => strContains (lowerStr name) "jitter",
    fun s => interp (s.distortion : ℚ) 0 10 0.0001 0.010),
  (fun name => strContains (lowerStr name) "shimmer",
    fun s => interp (s.distortion : ℚ) 0 10 0.01 0.2),
  (fun name => strContains name "NHR",
    fun s => interp ((10 - s.voiceClarity : ℤ) : ℚ) 0 10 0.01 0.30),
  (fun name => strContains name "HNR",
    fun s => interp (s.voiceClarity : ℚ) 0 10 5 35),
  (fun name => strContains (lowerStr name) "rpde",
    fun s => interp ((10 - s.speechStability : ℤ) : ℚ) 0 10 0.30 0.65),
  (fun name => strContains (lowerStr name) "dfa",
    fun s => interp ((10 - s.tremor : ℤ) : ℚ) 0 10 0.50 1.30),
  (fun name => strContains (lowerStr name) "ppe",
    fun s => interp ((s.distortion : ℚ) + ((10 - s.speechStability : ℤ) : ℚ)) 0 20 0.02 0.30)]

/-- The contract table as the code actually dispatches: age, sex, jitter
and shimmer case-insensitively, and NHR, HNR, RPDE, DFA and PPE all
case-sensitively. -/
def specRules : List Rule := [
  (fun name => strContains (lowerStr name) "age", fun s => (s.age : ℚ)),
  (fun name => strContains (lowerStr name) "sex", fun s => (s.sex : ℚ)),
  (fun name => strContains (lowerStr name) "jitter",
    fun s => interp (s.distortion : ℚ) 0 10 0.0001 0.010),
  (fun name => strContains (lowerStr name) "shimmer",
    fun s => interp (s.distortion : ℚ) 0 10 0.01 0.2),
  (fun name => strContains name "NHR",
    fun s => interp ((10 - s.voiceClarity : ℤ) : ℚ) 0 10 0.01 0.30),
  (fun name => strContains name "HNR",
    fun s => interp (s.voiceClarity : ℚ) 0 10 5 35),
  (fun name => strContains name "RPDE",
    fun s => interp ((10 - s.speechStability : ℤ) : ℚ) 0 10 0.30 0.65),
  (fun name => strContains name "DFA",
    fun s => interp ((10 - s.tremor : ℤ) : ℚ) 0 10 0.50 1.30),
  (fun name => strContains name "PPE",
    fun s => interp ((s.distortion : ℚ) + ((10 - s.speechStability : ℤ) : ℚ)) 0 20 0.02 0.30)]

example : ValidInputs defaultInputs := by decide
example : featureValue defaultInputs "age" = 60 := by decide
example : featureValue defaultInputs "HNR" = 20 := by
  simp +decide [featureValue, interp, defaultInputs]; norm_num
example : featureValue defaultInputs "hnr" = 0.55 := by
  simp +decide [featureValue, interp, defaultInputs]; norm_num
example : featureValue defaultInputs "MDVP:Jitter(%)" = 0.00505 := by
  simp +decide [featureValue, interp, defaultInputs]; norm_num
example : featureValue defaultInputs "rpde" = 0.55 := by
  simp +decide [featureValue, interp, defaultInputs]; norm_num
example : featureValue defaultInputs "RPDE" = 0.475 := by
  simp +decide [featureValue, interp, defaultInputs]; norm_num
example : applyRules defaultInputs "rpde" claimRules = 0.475 := by
  simp +decide [applyRules, claimRules, interp, defaultInputs]; norm_num
example : featureValue defaultInputs "RPDE" = applyRules defaultInputs "RPDE" specRules := rfl

/-- The value the synthesizer places at position i is the per-name rule
applied to the name at position i. -/
theorem create_getElem (s : SliderInputs) (names : List String) (i : ℕ) :
    (create_medical_feature_vector s names)[i]? = (names[i]?).map (featureValue s) := by
  simp [create_medical_feature_vector]

/-- Reading the synthesized vector at a position holding a known name gives
the per-name rule value. -/
theorem create_getD (s : SliderInputs) (names : List String) (i : ℕ) (name : String)
    (hname : names[i]? = some name) :
    (create_medical_feature_vector s names).getD i 0 = featureValue s name := by
  rw [List.getD_eq_getElem?_getD, create_getElem, hname]
  rfl

/-- Evaluation of the embedded np.interp on the interior of its domain
(in the form the app always uses, with lower endpoint 0): a plain linear
map once the argument is inside [0, d]. -/
theorem interp_lin (x y0 y1 d : ℚ) (hd : 0 < d) (hx0 : 0 ≤ x) (hx1 : x ≤ d) :
    interp x 0 d y0 y1 = y0 + x * (y1 - y0) / d := by
  unfold interp
  split_ifs with h1 h2
  · have hx : x = 0 := le_antisymm h1 hx0
    rw [hx]; ring
  · have hx : x = d := le_antisymm hx1 h2
    rw [hx]; field_simp
  · ring_nf

/-- A second valid slider state, differing from the default in every field
except age: sex Female, tremor 9, voice clarity 2, speech stability 3,
distortion 7. -/
def altInputs : SliderInputs :=
  { age := 60, sex := 0, tremor := 9, voiceClarity := 2, speechStability := 3, distortion := 7 }

/-- Per-name agreement of the loop body with the corrected rule table:
the if-chain of the source is exactly first-match-wins over the table
whose last five patterns are case-sensitive. -/
theorem featureValue_eq_specRules (s : SliderInputs) (name : String) :
    featureValue s name = applyRules s name specRules := rfl

/-- C1 (counterexample): the claim reads the unmarked RPDE, DFA and PPE
predicates of the contract table as case-insensitive; on the lowercase
name rpde the code takes the fallback branch (0.55 at the default sliders)
while the claimed table takes the RPDE branch (0.475), so the claimed
dispatch disagrees with the synthesizer. -/
theorem dispatch_rule_table_cex :
    create_medical_feature_vector defaultInputs ["rpde"]
      ≠ ["rpde"].map (fun n => applyRules defaultInputs n claimRules) := by
  simp +decide [create_medical_feature_vector, featureValue, applyRules, claimRules, interp,
    defaultInputs]
  norm_num

/-- C1 (amended): for every valid slider state, the value the synthesizer
places at each position is obtained by testing the name at that position
against the ordered predicate table with first match wins - age, sex,
jitter and shimmer case-insensitively, NHR, HNR, RPDE, DFA and PPE
case-sensitively, each firing rule interpolating its slider expression into
its clinical range, and the fallback interpolating distortion into
[0.1, 1.0]. -/
theorem dispatch_matches_rule_table (s : SliderInputs) (h : ValidInputs s)
    (names : List String) :
    create_medical_feature_vector s names = names.map (fun n => applyRules s n specRules) := by
  unfold create_medical_feature_vector
  exact List.map_congr_left (fun n _ => featureValue_eq_specRules s n)

theorem dispatch_matches_rule_table_witness :
    ValidInputs defaultInputs ∧
    create_medical_feature_vector defaultInputs ["age", "RPDE"]
      = ["age", "RPDE"].map (fun n => applyRules defaultInputs n specRules) :=
  ⟨by decide, dispatch_matches_rule_table defaultInputs (by decide) ["age", "RPDE"]⟩

/-- C2: for every valid slider state and any schema, the synthesized
vector has exactly one value per schema entry. -/
theorem feature_vector_length (s : SliderInputs) (h : ValidInputs s) (names : List String) :
    (create_medical_feature_vector s names).length = names.length := by
  simp [create_medical_feature_vector]

theorem feature_vector_length_witness :
    ValidInputs defaultInputs ∧
    (create_medical_feature_vector defaultInputs ["age", "sex", "HNR"]).length
      = (["age", "sex", "HNR"] : List String).length :=
  ⟨by decide, feature_vector_length defaultInputs (by decide) ["age", "sex", "HNR"]⟩

/-- C3: at a position whose feature name is the string age, the synthesized
value equals the age input exactly, and it is unchanged under any variation
of the remaining inputs that keeps age fixed. -/
theorem age_feature_exact (s s' : SliderInputs) (hs : ValidInputs s) (hs' : ValidInputs s')
    (hage : s'.age = s.age) (names : List String) (i : ℕ)
    (hname : names[i]? = some "age") :
    (create_medical_feature_vector s names).getD i 0 = (s.age : ℚ) ∧
    (create_medical_feature_vector s' names).getD i 0
      = (create_medical_feature_vector s names).getD i 0 := by
  have hv : ∀ t : SliderInputs, featureValue t "age" = (t.age : ℚ) := by
    intro t; simp +decide [featureValue]
  rw [create_getD s names i _ hname, create_getD s' names i _ hname, hv, hv, hage]
  exact ⟨rfl, rfl⟩

theorem age_feature_exact_witness :
    ValidInputs defaultInputs ∧ ValidInputs altInputs ∧ altInputs.age = defaultInputs.age ∧
    ((create_medical_feature_vector defaultInputs ["sex", "age"]).getD 1 0
        = (defaultInputs.age : ℚ) ∧
      (create_medical_feature_vector altInputs ["sex", "age"]).getD 1 0
        = (create_medical_feature_vector defaultInputs ["sex", "age"]).getD 1 0) :=
  ⟨by decide, by decide, rfl,
    age_feature_exact defaultInputs altInputs (by decide) (by decide) rfl ["sex", "age"] 1 rfl⟩

/-- C6: the synthesizer is a pure function of its inputs - two invocations
with identical slider state and schema give identical vectors, equal at
every position. -/
theorem synthesizer_deterministic (s1 s2 : SliderInputs) (h1 : ValidInputs s1)
    (names1 names2 : List String) (hs : s1 = s2) (hn : names1 = names2) :
    create_medical_feature_vector s1 names1 = create_medical_feature_vector s2 names2 ∧
    ∀ i : ℕ, (create_medical_feature_vector s1 names1)[i]?
      = (create_medical_feature_vector s2 names2)[i]? := by
  subst hs hn
  exact ⟨rfl, fun i => rfl⟩

theorem synthesizer_deterministic_witness :
    ValidInputs defaultInputs ∧
    (create_medical_feature_vector defaultInputs ["HNR", "PPE"]
        = create_medical_feature_vector defaultInputs ["HNR", "PPE"] ∧
      ∀ i : ℕ, (create_medical_feature_vector defaultInputs ["HNR", "PPE"])[i]?
        = (create_medical_feature_vector defaultInputs ["HNR", "PPE"])[i]?) :=
  ⟨by decide,
    synthesizer_deterministic defaultInputs defaultInputs (by decide) ["HNR", "PPE"]
      ["HNR", "PPE"] rfl rfl⟩

/-- C7: the empty schema is legal and yields the empty vector. -/
theorem empty_schema_empty_vector (s : SliderInputs) (h : ValidInputs s) :
    create_medical_feature_vector s [] = ([] : List ℚ) ∧
    (create_medical_feature_vector s []).length = 0 :=
  ⟨rfl, rfl⟩

theorem empty_schema_empty_vector_witness :
    ValidInputs defaultInputs ∧
    (create_medical_feature_vector defaultInputs [] = ([] : List ℚ) ∧
      (create_medical_feature_vector defaultInputs []).length = 0) :=
  ⟨by decide, empty_schema_empty_vector defaultInputs (by decide)⟩

/-- Slider bounds of a valid input state, cast into the rationals where the
synthesized values live. -/
theorem validBounds (s : SliderInputs) (h : ValidInputs s) :
    (0:ℚ) ≤ (s.tremor : ℚ) ∧ (s.tremor : ℚ) ≤ 10 ∧
    (0:ℚ) ≤ (s.voiceClarity : ℚ) ∧ (s.voiceClarity : ℚ) ≤ 10 ∧
    (0:ℚ) ≤ (s.speechStability : ℚ) ∧ (s.speechStability : ℚ) ≤ 10 ∧
    (0:ℚ) ≤ (s.distortion : ℚ) ∧ (s.distortion : ℚ) ≤ 10 := by
  unfold ValidInputs at h
  obtain ⟨-, -, -, ht0, ht1, hv0, hv1, hs0, hs1, hd0, hd1⟩ := h
  exact ⟨by exact_mod_cast ht0, by exact_mod_cast ht1, by exact_mod_cast hv0,
    by exact_mod_cast hv1, by exact_mod_cast hs0, by exact_mod_cast hs1,
    by exact_mod_cast hd0, by exact_mod_cast hd1⟩

/-- C4: at a position named MDVP:Jitter(%), distortion 0 gives the lower
bound 0.0001 of the jitter range and distortion 10 gives the upper bound
0.010, whatever the remaining inputs. -/
theorem jitter_feature_bounds (s0 s1 : SliderInputs) (h0 : ValidInputs s0)
    (h1 : ValidInputs s1) (hd0 : s0.distortion = 0) (hd1 : s1.distortion = 10)
    (names : List String) (i : ℕ) (hname : names[i]? = some "MDVP:Jitter(%)") :
    (create_medical_feature_vector s0 names).getD i 0 = 0.0001 ∧
    (create_medical_feature_vector s1 names).getD i 0 = 0.010 := by
  have hv : ∀ t : SliderInputs,
      featureValue t "MDVP:Jitter(%)" = interp (t.distortion : ℚ) 0 10 0.0001 0.010 := by
    intro t; simp +decide [featureValue]
  rw [create_getD s0 names i _ hname, create_getD s1 names i _ hname, hv, hv, hd0, hd1]
  constructor
  · norm_num [interp]
  · norm_num [interp]

theorem jitter_feature_bounds_witness :
    ValidInputs { defaultInputs with distortion := 0 } ∧
    ValidInputs { defaultInputs with distortion := 10 } ∧
    ((create_medical_feature_vector { defaultInputs with distortion := 0 }
        ["MDVP:Jitter(%)"]).getD 0 0 = 0.0001 ∧
      (create_medical_feature_vector { defaultInputs with distortion := 10 }
        ["MDVP:Jitter(%)"]).getD 0 0 = 0.010) :=
  ⟨by decide, by decide,
    jitter_feature_bounds { defaultInputs with distortion := 0 }
      { defaultInputs with distortion := 10 } (by decide) (by decide) rfl rfl
      ["MDVP:Jitter(%)"] 0 rfl⟩

/-- C5: at a position named HNR, with every other input held fixed, the
synthesized value is monotonically non-decreasing in voice clarity. -/
theorem hnr_monotone_in_clarity (s1 s2 : SliderInputs) (h1 : ValidInputs s1)
    (h2 : ValidInputs s2) (hage : s1.age = s2.age) (hsex : s1.sex = s2.sex)
    (htremor : s1.tremor = s2.tremor) (hss : s1.speechStability = s2.speechStability)
    (hdist : s1.distortion = s2.distortion) (hv : s1.voiceClarity ≤ s2.voiceClarity)
    (names : List String) (i : ℕ) (hname : names[i]? = some "HNR") :
    (create_medical_feature_vector s1 names).getD i 0
      ≤ (create_medical_feature_vector s2 names).getD i 0 := by
  have hval : ∀ t : SliderInputs,
      featureValue t "HNR" = interp (t.voiceClarity : ℚ) 0 10 5 35 := by
    intro t; simp +decide [featureValue]
  rw [create_getD s1 names i _ hname, create_getD s2 names i _ hname, hval, hval]
  obtain ⟨-, -, hv10, hv11, -⟩ := validBounds s1 h1
  obtain ⟨-, -, hv20, hv21, -⟩ := validBounds s2 h2
  rw [interp_lin _ _ _ _ (by norm_num) hv10 hv11,
    interp_lin _ _ _ _ (by norm_num) hv20 hv21]
  have hvq : (s1.voiceClarity : ℚ) ≤ (s2.voiceClarity : ℚ) := by exact_mod_cast hv
  linarith

theorem hnr_monotone_in_clarity_witness :
    ValidInputs { defaultInputs with voiceClarity := 2 } ∧ ValidInputs defaultInputs ∧
    (create_medical_feature_vector { defaultInputs with voiceClarity := 2 } ["HNR"]).getD 0 0
      ≤ (create_medical_feature_vector defaultInputs ["HNR"]).getD 0 0 :=
  ⟨by decide, by decide,
    hnr_monotone_in_clarity { defaultInputs with voiceClarity := 2 } defaultInputs
      (by decide) (by decide) rfl rfl rfl rfl rfl (by decide) ["HNR"] 0 rfl⟩

/-- C8 (counterexample): matching is not case-insensitive across the known
biomarker substrings - the names HNR and hnr agree on every substring up
to case, yet at the default sliders the synthesizer gives 20 at the first
and 0.55 at the second (the fallback), so the case-insensitive half of the
claim fails. -/
theorem case_insensitive_matching_cex :
    (create_medical_feature_vector defaultInputs ["HNR"]).getD 0 0
      ≠ (create_medical_feature_vector defaultInputs ["hnr"]).getD 0 0 := by
  simp +decide [create_medical_feature_vector, featureValue, interp, defaultInputs]
  norm_num

/-- C8 (amended): the value at position i depends only on the name at
position i and the sliders - two runs whose schemas agree at i give the
same value at i - and the remaining matching is case-insensitive in the
sense that two names with the same lowercasing and the same (case-exact)
membership of the NHR, HNR, RPDE, DFA and PPE substrings always receive
the same value. -/
theorem per_position_dependence (s : SliderInputs) (h : ValidInputs s)
    (names1 names2 : List String) (i : ℕ) (hagree : names1[i]? = names2[i]?) :
    (create_medical_feature_vector s names1)[i]?
      = (create_medical_feature_vector s names2)[i]? ∧
    (∀ name1 name2 : String, lowerStr name1 = lowerStr name2 →
      strContains name1 "NHR" = strContains name2 "NHR" →
      strContains name1 "HNR" = strContains name2 "HNR" →
      strContains name1 "RPDE" = strContains name2 "RPDE" →
      strContains name1 "DFA" = strContains name2 "DFA" →
      strContains name1 "PPE" = strContains name2 "PPE" →
      featureValue s name1 = featureValue s name2) := by
  constructor
  · rw [create_getElem, create_getElem, hagree]
  · intro n1 n2 hlow e1 e2 e3 e4 e5
    simp only [featureValue, hlow, e1, e2, e3, e4, e5]

theorem per_position_dependence_witness :
    ValidInputs defaultInputs ∧
    ((create_medical_feature_vector defaultInputs ["DFA", "HNR"])[1]?
        = (create_medical_feature_vector defaultInputs ["PPE", "HNR"])[1]? ∧
      (∀ name1 name2 : String, lowerStr name1 = lowerStr name2 →
        strContains name1 "NHR" = strContains name2 "NHR" →
        strContains name1 "HNR" = strContains name2 "HNR" →
        strContains name1 "RPDE" = strContains name2 "RPDE" →
        strContains name1 "DFA" = strContains name2 "DFA" →
        strContains name1 "PPE" = strContains name2 "PPE" →
        featureValue defaultInputs name1 = featureValue defaultInputs name2)) :=
  ⟨by decide,
    per_position_dependence defaultInputs (by decide) ["DFA", "HNR"] ["PPE", "HNR"] 1 rfl⟩

/-- C9: at a position whose name contains NHR (case-exact) and no
earlier-matching substring, the value is monotonically non-increasing in
voice clarity with the other inputs fixed, clarity 10 giving 0.01 and
clarity 0 giving 0.30. -/
theorem nhr_antitone_in_clarity (s1 s2 : SliderInputs) (h1 : ValidInputs s1)
    (h2 : ValidInputs s2) (name : String)
    (hage : strContains (lowerStr name) "age" = false)
    (hsex : strContains (lowerStr name) "sex" = false)
    (hjit : strContains (lowerStr name) "jitter" = false)
    (hshim : strContains (lowerStr name) "shimmer" = false)
    (hnhr : strContains name "NHR" = true)
    (heqage : s1.age = s2.age) (heqsex : s1.sex = s2.sex)
    (heqtremor : s1.tremor = s2.tremor) (heqss : s1.speechStability = s2.speechStability)
    (heqdist : s1.distortion = s2.distortion) (hv : s1.voiceClarity ≤ s2.voiceClarity)
    (names : List String) (i : ℕ) (hname : names[i]? = some name) :
    (create_medical_feature_vector s2 names).getD i 0
      ≤ (create_medical_feature_vector s1 names).getD i 0 ∧
    (s2.voiceClarity = 10 → (create_medical_feature_vector s2 names).getD i 0 = 0.01) ∧
    (s1.voiceClarity = 0 → (create_medical_feature_vector s1 names).getD i 0 = 0.30) := by
  have hval : ∀ t : SliderInputs,
      featureValue t name = interp ((10 - t.voiceClarity : ℤ) : ℚ) 0 10 0.01 0.30 := by
    intro t
    simp [featureValue, hage, hsex, hjit, hshim, hnhr]
  rw [create_getD s1 names i _ hname, create_getD s2 names i _ hname, hval, hval]
  obtain ⟨-, -, hv10, hv11, -⟩ := validBounds s1 h1
  obtain ⟨-, -, hv20, hv21, -⟩ := validBounds s2 h2
  have hb1l : (0:ℚ) ≤ ((10 - s1.voiceClarity : ℤ) : ℚ) := by push_cast; linarith
  have hb1u : ((10 - s1.voiceClarity : ℤ) : ℚ) ≤ 10 := by push_cast; linarith
  have hb2l : (0:ℚ) ≤ ((10 - s2.voiceClarity : ℤ) : ℚ) := by push_cast; linarith
  have hb2u : ((10 - s2.voiceClarity : ℤ) : ℚ) ≤ 10 := by push_cast; linarith
  rw [interp_lin _ _ _ _ (by norm_num) hb1l hb1u,
    interp_lin _ _ _ _ (by norm_num) hb2l hb2u]
  have hvq : (s1.voiceClarity : ℚ) ≤ (s2.voiceClarity : ℚ) := by exact_mod_cast hv
  refine ⟨by push_cast; linarith, ?_, ?_⟩
  · intro hc10
    have : (s2.voiceClarity : ℚ) = 10 := by exact_mod_cast hc10
    push_cast
    rw [this]
    norm_num
  · intro hc0
    have : (s1.voiceClarity : ℚ) = 0 := by exact_mod_cast hc0
    push_cast
    rw [this]
    norm_num

theorem nhr_antitone_in_clarity_witness :
    ValidInputs { defaultInputs with voiceClarity := 0 } ∧
    ValidInputs { defaultInputs with voiceClarity := 10 } ∧
    ((create_medical_feature_vector { defaultInputs with voiceClarity := 10 } ["NHR"]).getD 0 0
        ≤ (create_medical_feature_vector { defaultInputs with voiceClarity := 0 }
            ["NHR"]).getD 0 0 ∧
      (({ defaultInputs with voiceClarity := 10 } : SliderInputs).voiceClarity = 10 →
        (create_medical_feature_vector { defaultInputs with voiceClarity := 10 }
          ["NHR"]).getD 0 0 = 0.01) ∧
      (({ defaultInputs with voiceClarity := 0 } : SliderInputs).voiceClarity = 0 →
        (create_medical_feature_vector { defaultInputs with voiceClarity := 0 }
          ["NHR"]).getD 0 0 = 0.30)) :=
  ⟨by decide, by decide,
    nhr_antitone_in_clarity { defaultInputs with voiceClarity := 0 }
      { defaultInputs with voiceClarity := 10 } (by decide) (by decide) "NHR"
      (by decide) (by decide) (by decide) (by decide) (by decide)
      rfl rfl rfl rfl rfl (by decide) ["NHR"] 0 rfl⟩

/-- C10: the case-sensitive predicates make the lowercase name hnr miss
every biomarker rule: its value is the fallback, distortion interpolated
into [0.1, 1.0], and never the HNR interpolation of voice clarity into
[5, 35]. -/
theorem lowercase_hnr_falls_back (s : SliderInputs) (h : ValidInputs s)
    (names : List String) (i : ℕ) (hname : names[i]? = some "hnr") :
    (create_medical_feature_vector s names).getD i 0
      = interp (s.distortion : ℚ) 0 10 0.1 1.0 ∧
    (create_medical_feature_vector s names).getD i 0
      ≠ interp (s.voiceClarity : ℚ) 0 10 5 35 := by
  have hval : featureValue s "hnr" = interp (s.distortion : ℚ) 0 10 0.1 1.0 := by
    simp +decide [featureValue]
  rw [create_getD s names i _ hname, hval]
  refine ⟨rfl, ?_⟩
  obtain ⟨-, -, hv0, hv1, -, -, hd0, hd1⟩ := validBounds s h
  rw [interp_lin _ _ _ _ (by norm_num) hd0 hd1,
    interp_lin _ _ _ _ (by norm_num) hv0 hv1]
  intro hEq
  norm_num at hEq
  linarith

theorem lowercase_hnr_falls_back_witness :
    ValidInputs defaultInputs ∧
    ((create_medical_feature_vector defaultInputs ["hnr"]).getD 0 0
        = interp (defaultInputs.distortion : ℚ) 0 10 0.1 1.0 ∧
      (create_medical_feature_vector defaultInputs ["hnr"]).getD 0 0
        ≠ interp (defaultInputs.voiceClarity : ℚ) 0 10 5 35) :=
  ⟨by decide, lowercase_hnr_falls_back defaultInputs (by decide) ["hnr"] 0 rfl⟩
